import Mathlib

/-!
Shallow embedding of the Router-Interface / VRF / Address Synchronization
Engine of `src/platform/saivpp/vpplib/SwitchStateBaseRif.cpp`.

Conventions of the embedding:
* `std::map` members (`m_intf_prefix_map`, `vrf_objMap`, `lpbInstMap`,
  `lpbIpToIfMap`, `lpbIpToHostIfMap`) are association lists with
  insert-or-assign (`mSet`), lookup (`mFind`), erase (`mErase`) and the
  `operator[]` default-inserting read (`mGetIns`).  All operations keep key
  uniqueness when starting from states the code can build.
* `std::set<int> availableInstances` is an ascending sorted list
  (`setInsertNat` mirrors `insert`, taking the head mirrors `*begin()`).
* External collaborators (attribute store `get`, OS address discovery,
  serialization from `meta/sai_serialize`, the dataplane API return codes)
  are supplied through explicit environment records; the dataplane calls a
  function makes are returned as an explicit trace (`DpCall`/`VrfCall`).
* A C++ `throw std::logic_error` is the `Except.error` branch of the result,
  distinguishable from every normal `Except.ok <status>` return.
* Since Lean names may not contain some substrings used by the source,
  the source word for requested/resolved IP networks is abbreviated `Pfx`
  in names (e.g. `SaiIpPfx` embeds `sai_ip_prefix_t`).
-/

namespace SaiVppRif

/-- SAI status results the functions under study return
(`SAI_STATUS_SUCCESS` / `SAI_STATUS_FAILURE`). -/
inductive SaiStatus
  | success
  | failure
deriving DecidableEq

/-- Result of `objectTypeQuery` on the port object bound to a router
interface: the code distinguishes VLAN, PORT, and everything else. -/
inductive ObjType
  | port
  | vlan
  | other
deriving DecidableEq

/-- Address family tag of a SAI request (`sai_ip_addr_family_t`); the code
only ever tests `== SAI_IP_ADDR_FAMILY_IPV6`. -/
inductive SaiFamily
  | ipv4
  | ipv6
deriving DecidableEq

/-- C socket address family of a resolved (live OS) address: `AF_INET`,
`AF_INET6`, or any other value (which the code treats as fatal). -/
inductive CFamily
  | inet
  | inet6
  | other
deriving DecidableEq

/-- Embedding of `vpp_ip_route_t` as filled by the address paths:
address family, address bytes and prefix length. -/
structure VppIpRoute where
  sa_family : CFamily
  addr : List Nat
  len : Nat
deriving DecidableEq

/-- Embedding of a resolved `swss::IpPrefix` (family, address bytes, mask
length) as produced from a live OS address string. -/
structure ResolvedPfx where
  family : CFamily
  addr : List Nat
  maskLen : Nat
deriving DecidableEq

/-- Embedding of a requested `sai_ip_prefix_t`: family plus address/mask
payload (kept abstract as byte lists; the code only forwards them to the
serializer and to the OS query). -/
structure SaiIpPfx where
  family : SaiFamily
  addrBytes : List Nat
  maskBytes : List Nat
deriving DecidableEq

/-! ### Association-list model of `std::map` -/

/-- `std::map::find` (by key). -/
def mFind {κ α : Type} [DecidableEq κ] : List (κ × α) → κ → Option α
  | [], _ => none
  | (k1, v) :: rest, k => if k1 = k then some v else mFind rest k

/-- `m[k] = v`: insert-or-assign. -/
def mSet {κ α : Type} [DecidableEq κ] : List (κ × α) → κ → α → List (κ × α)
  | [], k, v => [(k, v)]
  | (k1, v1) :: rest, k, v =>
    if k1 = k then (k, v) :: rest else (k1, v1) :: mSet rest k v

/-- `std::map::erase` of a key (all bindings of the key; maps built by
`mSet` carry at most one). -/
def mErase {κ α : Type} [DecidableEq κ] (m : List (κ × α)) (k : κ) :
    List (κ × α) :=
  m.filter (fun p => decide (p.1 ≠ k))

/-- `m[k]` as a read: returns the mapped value, default-inserting `d` when
the key is absent (the `std::map::operator[]` side effect). -/
def mGetIns {κ α : Type} [DecidableEq κ] (m : List (κ × α)) (k : κ) (d : α) :
    α × List (κ × α) :=
  match mFind m k with
  | some v => (v, m)
  | none => (d, m ++ [(k, d)])

theorem mFind_mSet {κ α : Type} [DecidableEq κ] (m : List (κ × α)) (k : κ)
    (v : α) : mFind (mSet m k v) k = some v := by
  induction m with
  | nil => simp [mSet, mFind]
  | cons hd tl ih =>
    obtain ⟨k1, v1⟩ := hd
    by_cases h : k1 = k
    · simp [mSet, mFind, h]
    · simp [mSet, mFind, h, ih]

theorem mFind_mErase {κ α : Type} [DecidableEq κ] (m : List (κ × α))
    (k : κ) : mFind (mErase m k) k = none := by
  induction m with
  | nil => simp [mErase, mFind]
  | cons hd tl ih =>
    obtain ⟨k1, v1⟩ := hd
    by_cases h : k1 = k
    · simpa [mErase, mFind, h] using ih
    · simpa [mErase, mFind, h] using ih

/-! ### String helpers used by the source -/

/-- Character-list test: does the pattern start the list? -/
def startsWithCL : List Char → List Char → Bool
  | [], _ => true
  | _ :: _, [] => false
  | p :: ps, c :: cs => p == c && startsWithCL ps cs

/-- Character-list substring test (`std::string::find(pat) != npos`). -/
def hasSubCL (pat : List Char) : List Char → Bool
  | [] => startsWithCL pat []
  | c :: cs => startsWithCL pat (c :: cs) || hasSubCL pat cs

/-- `s.find(pat) != std::string::npos`. -/
def strContains (s pat : String) : Bool :=
  hasSubCL pat.toList s.toList

/-- Split a character list at the first occurrence of `c`
(`std::string::find` + `substr` pair); `none` when `c` is absent. -/
def splitAtFirstChar (c : Char) : List Char → Option (List Char × List Char)
  | [] => none
  | x :: xs =>
    if x = c then some ([], xs)
    else
      match splitAtFirstChar c xs with
      | none => none
      | some (a, b) => some (x :: a, b)

/-- Decimal digits to a natural number (accumulator form). -/
def digitsToNat : List Char → Nat → Nat
  | [], acc => acc
  | c :: cs, acc => digitsToNat cs (acc * 10 + (c.toNat - 48))

/-- Model of `std::stoi` on the inputs the code feeds it: the leading
decimal-digit run of the string (0 when there is none; `std::stoi` would
throw there, a case the callers never reach on well-formed names). -/
def stoiNat (s : String) : Nat :=
  digitsToNat (s.toList.takeWhile Char.isDigit) 0

/-! ### Shared naming helpers of the address paths -/

/-- Router-interface type constants (`sai_router_interface_type_t`). -/
def RIF_PORT : Int := 0

/-- `SAI_ROUTER_INTERFACE_TYPE_LOOPBACK`. -/
def RIF_LOOPBACK : Int := 2

/-- `SAI_ROUTER_INTERFACE_TYPE_SUB_PORT`. -/
def RIF_SUB_PORT : Int := 4

/-- The `"name"` / `"name.vlan"` choice made in several places
(`snprintf("%s.%u", hwifname, vlan_id)` when a VLAN id is present). -/
def mk_linux_ifname (if_name : String) (vlan_id : Nat) : String :=
  if vlan_id ≠ 0 then if_name ++ "." ++ toString vlan_id else if_name

/-- Trace entry for every dataplane / OS side effect the embedded
functions issue. -/
inductive DpCall
  | addrAddDel (ifname : String) (route : VppIpRoute) (isAdd : Bool)
  | setIntfState (ifname : String) (isUp : Bool)
  | hwSetMtu (ifname : String) (mtu : Nat)
  | swSetMtu (ifname : String) (mtu : Nat) (t : Int)
  | createLoopback (ifname : String) (inst : Nat)
  | deleteLoopback (ifname : String) (inst : Nat)
  | refreshInterfacesList
  | lcpCreate (vppName : String) (hostName : String) (isAdd : Bool)
  | osLoopbackCfg (isAdd : Bool) (hostIf : String) (destIP : String) (len : Nat)
deriving DecidableEq

deriving instance DecidableEq for Except

/-- The prefix-state store `m_intf_prefix_map` (composite string key to
serialized record). -/
abbrev PfxMap := List (String × String)

/-- Result of an address add/remove operation: the returned status (or a
thrown `std::logic_error` text), the store after the call, and the
dataplane calls issued. -/
structure AddrOutcome where
  result : Except String SaiStatus
  store : PfxMap
  calls : List DpCall
deriving DecidableEq

/-- `SwitchStateBase::vpp_intf_get_prefix_entry`: lookup in the store. -/
def vpp_intf_get_pfx_entry (store : PfxMap) (k : String) : Option String :=
  mFind store k

/-- `SwitchStateBase::vpp_intf_remove_prefix_entry`: erase the key when
present, otherwise log and leave the store unchanged. -/
def vpp_intf_remove_pfx_entry (store : PfxMap) (k : String) : PfxMap :=
  match mFind store k with
  | none => store
  | some _ => mErase store k

/-- The `vpp_ip_route_t` the add/remove tail fills from the resolved
address (the two recognized `switch` cases). -/
def routeOfResolved (p : ResolvedPfx) : VppIpRoute :=
  ⟨p.family, p.addr, p.maskLen⟩

/-- The `switch (m_ip.getIp().family)` dispatch of the address paths:
`AF_INET`/`AF_INET6` fill the route, any other family raises
`std::logic_error("Invalid family")`. -/
def mkVppRouteFromResolved (p : ResolvedPfx) : Except String VppIpRoute :=
  match p.family with
  | CFamily.other => Except.error "Invalid family"
  | _ => Except.ok (routeOfResolved p)

/-- Common tail of both address add/remove functions: build the route
(fatal on unknown family), derive the dataplane interface name from the
tap name and VLAN id, issue `interface_ip_address_add_del`, and map its
return code to a SAI status. -/
def addr_dp_tail (tapToHwif : String → String)
    (dpRet : String → VppIpRoute → Bool → Int) (p : ResolvedPfx)
    (store1 : PfxMap) (if_name : String) (vlan_id : Nat) (is_add : Bool) :
    AddrOutcome :=
  match mkVppRouteFromResolved p with
  | Except.error e => ⟨Except.error e, store1, []⟩
  | Except.ok route =>
    let hw := mk_linux_ifname (tapToHwif if_name) vlan_id
    let ret := dpRet hw route is_add
    ⟨Except.ok (if ret = 0 then SaiStatus.success else SaiStatus.failure),
      store1, [DpCall.addrAddDel hw route is_add]⟩

/-! ### `vpp_add_del_intf_ip_addr` (router-interface case) -/

/-- Environment of `vpp_add_del_intf_ip_addr`: attribute-store answers,
object typing, host-interface naming, live-OS address resolution, the
serialization collaborators, and the dataplane return code.
`parsePfx` embeds `swss::IpPrefix(str)`; `serializeResolved` embeds
`sai_serialize_ip_prefix` after `copy(saiIpPrefix, intf_ip_prefix)`;
`parseStored` embeds `getIpPrefixFromSaiPrefix` after
`sai_deserialize_ip_prefix`; `serializeSaiPfx` embeds
`sai_serialize_ip_prefix` on the requested network. -/
structure RifEnv where
  rifType : Option Int
  portId : Option Nat
  objectTypeQuery : Nat → ObjType
  outerVlan : Option Nat
  getTapNameFromPortId : Nat → Option String
  resolveAddr : String → Bool → Option String
  parsePfx : String → ResolvedPfx
  serializeResolved : ResolvedPfx → String
  parseStored : String → ResolvedPfx
  serializeSaiPfx : SaiIpPfx → String
  tapToHwif : String → String
  dpRet : String → VppIpRoute → Bool → Int

/-- The composite store key `linux_ifname + addr_family +
sai_serialize_ip_prefix(ip_prefix)` built (once, before branching) by
`vpp_add_del_intf_ip_addr`. -/
def rifKey (env : RifEnv) (rp : SaiIpPfx) (if_name : String) : String :=
  mk_linux_ifname if_name (env.outerVlan.getD 0) ++
    (if rp.family == SaiFamily.ipv6 then "v6" else "v4") ++
    env.serializeSaiPfx rp

/-- The dataplane interface name the tail of `vpp_add_del_intf_ip_addr`
uses (`tap_to_hwif_name` plus the optional VLAN suffix). -/
def rifHwName (env : RifEnv) (if_name : String) : String :=
  mk_linux_ifname (env.tapToHwif if_name) (env.outerVlan.getD 0)

/-- Embedding of `SwitchStateBase::vpp_add_del_intf_ip_addr`
(SwitchStateBaseRif.cpp:544): attribute checks, VLAN-skip, composite key
construction, add path (live resolution, store write before the dataplane
call) and remove path (store lookup, erase before the dataplane call). -/
def vpp_add_del_intf_ip_addr (env : RifEnv) (rp : SaiIpPfx) (store : PfxMap)
    (is_add : Bool) : AddrOutcome :=
  match env.rifType with
  | none => ⟨Except.ok SaiStatus.failure, store, []⟩
  | some rif_type =>
    match env.portId with
    | none => ⟨Except.ok SaiStatus.failure, store, []⟩
    | some obj_id =>
      if env.objectTypeQuery obj_id = ObjType.vlan then
        ⟨Except.ok SaiStatus.success, store, []⟩
      else if env.objectTypeQuery obj_id ≠ ObjType.port then
        ⟨Except.ok SaiStatus.failure, store, []⟩
      else if rif_type ≠ RIF_SUB_PORT ∧ rif_type ≠ RIF_PORT ∧
          rif_type ≠ RIF_LOOPBACK then
        ⟨Except.ok SaiStatus.success, store, []⟩
      else
        match env.getTapNameFromPortId obj_id with
        | none => ⟨Except.ok SaiStatus.failure, store, []⟩
        | some if_name =>
          let vlan_id := env.outerVlan.getD 0
          let is_v6 := rp.family == SaiFamily.ipv6
          let linux_ifname := mk_linux_ifname if_name vlan_id
          let key := rifKey env rp if_name
          if is_add then
            match env.resolveAddr linux_ifname is_v6 with
            | none => ⟨Except.ok SaiStatus.success, store, []⟩
            | some res =>
              let p := env.parsePfx res
              let store1 := mSet store key (env.serializeResolved p)
              addr_dp_tail env.tapToHwif env.dpRet p store1 if_name vlan_id
                true
          else
            match mFind store key with
            | none => ⟨Except.ok SaiStatus.success, store, []⟩
            | some stored =>
              let p := env.parseStored stored
              let store1 := vpp_intf_remove_pfx_entry store key
              addr_dp_tail env.tapToHwif env.dpRet p store1 if_name vlan_id
                false

/-! ### `vpp_add_del_intf_ip_addr_norif` (route-derived case) -/

/-- `get_intf_vlanid`: split `"name.vlan"` at the first dot into the base
name and the numeric VLAN id (0 when there is no dot). -/
def get_intf_vlanid (sub_ifname : String) : String × Nat :=
  match splitAtFirstChar '.' sub_ifname.toList with
  | none => (sub_ifname, 0)
  | some (a, b) => (String.mk a, stoiNat (String.mk b))

/-- `vpp_serialize_intf_data`: `k1 ++ "@" ++ k2`. -/
def vpp_serialize_intf_data (k1 k2 : String) : String :=
  k1 ++ "@" ++ k2

/-- `vpp_deserialize_intf_data`: split at the first `@`; when the
delimiter is absent the outputs stay at their empty defaults. -/
def vpp_deserialize_intf_data (s : String) : String × String :=
  match splitAtFirstChar '@' s.toList with
  | some (a, b) => (String.mk a, String.mk b)
  | none => ("", "")

/-- Environment of `vpp_add_del_intf_ip_addr_norif`: the reverse OS lookup
`vpp_get_intf_name_for_prefix` for this route's destination, the live
address resolution, the serialization collaborators and the dataplane
return code (field meanings as in `RifEnv`). -/
structure NorifEnv where
  intfNameForDest : Option String
  resolveAddr : String → Bool → Option String
  parsePfx : String → ResolvedPfx
  serializeResolved : ResolvedPfx → String
  parseStored : String → ResolvedPfx
  tapToHwif : String → String
  dpRet : String → VppIpRoute → Bool → Int

/-- Embedding of `SwitchStateBase::vpp_add_del_intf_ip_addr_norif`
(SwitchStateBaseRif.cpp:758): the caller supplies the composite key; add
resolves the owning device then the live address and stores
`full_if_name@serialized`, remove reads and erases the entry; the common
tail issues the dataplane call on the hardware name derived from the
device name's base/VLAN split. -/
def vpp_add_del_intf_ip_addr_norif (env : NorifEnv) (ip_pfx_key : String)
    (fam : SaiFamily) (store : PfxMap) (is_add : Bool) : AddrOutcome :=
  let is_v6 := fam == SaiFamily.ipv6
  if is_add then
    match env.intfNameForDest with
    | none => ⟨Except.ok SaiStatus.failure, store, []⟩
    | some full_if_name =>
      let iv := get_intf_vlanid full_if_name
      match env.resolveAddr full_if_name is_v6 with
      | none => ⟨Except.ok SaiStatus.success, store, []⟩
      | some res =>
        let p := env.parsePfx res
        let intf_data :=
          vpp_serialize_intf_data full_if_name (env.serializeResolved p)
        let store1 := mSet store ip_pfx_key intf_data
        addr_dp_tail env.tapToHwif env.dpRet p store1 iv.1 iv.2 true
  else
    match mFind store ip_pfx_key with
    | none => ⟨Except.ok SaiStatus.success, store, []⟩
    | some intf_data =>
      let fi := vpp_deserialize_intf_data intf_data
      let iv := get_intf_vlanid fi.1
      let p := env.parseStored fi.2
      let store1 := vpp_intf_remove_pfx_entry store ip_pfx_key
      addr_dp_tail env.tapToHwif env.dpRet p store1 iv.1 iv.2 false

/-! ### VRF lifecycle (`vpp_add_ip_vrf`, `vpp_del_ip_vrf`) -/

/-- Embedding of `IpVrfInfo` (the registered VRF descriptor). -/
structure IpVrfInfo where
  m_obj_id : Nat
  m_vrf_id : Nat
  m_vrf_name : String
  m_is_ipv6 : Bool
deriving DecidableEq

/-- Trace entry for the dataplane VRF calls. -/
inductive VrfCall
  | ipVrfAdd (vrf_id : Nat) (name : String) (isV6 : Bool)
  | ipVrfDel (vrf_id : Nat) (name : String) (isV6 : Bool)
  | flowHashSet (vrf_id : Nat) (mask : Nat) (family : CFamily)
deriving DecidableEq

/-- `vrf_objMap`: virtual-router object id to (possibly null)
`shared_ptr<IpVrfInfo>`. -/
abbrev VrfMap := List (Nat × Option IpVrfInfo)

/-- Flow-hash bit `VPP_IP_API_FLOW_HASH_SRC_IP` (external header;
bit values modelled, only their identity matters here). -/
def VPP_IP_API_FLOW_HASH_SRC_IP : Nat := 1

/-- Flow-hash bit `VPP_IP_API_FLOW_HASH_DST_IP`. -/
def VPP_IP_API_FLOW_HASH_DST_IP : Nat := 2

/-- Flow-hash bit `VPP_IP_API_FLOW_HASH_SRC_PORT`. -/
def VPP_IP_API_FLOW_HASH_SRC_PORT : Nat := 4

/-- Flow-hash bit `VPP_IP_API_FLOW_HASH_DST_PORT`. -/
def VPP_IP_API_FLOW_HASH_DST_PORT : Nat := 8

/-- Flow-hash bit `VPP_IP_API_FLOW_HASH_PROTO`. -/
def VPP_IP_API_FLOW_HASH_PROTO : Nat := 16

/-- The fixed ECMP hash mask `vpp_add_ip_vrf` programs. -/
def vrf_flow_hash_mask : Nat :=
  VPP_IP_API_FLOW_HASH_SRC_IP ||| VPP_IP_API_FLOW_HASH_DST_IP |||
  VPP_IP_API_FLOW_HASH_SRC_PORT ||| VPP_IP_API_FLOW_HASH_DST_PORT |||
  VPP_IP_API_FLOW_HASH_PROTO

/-- The `std::string vrf_name = "vrf_" + vrf_id;` of the source.  In C++
this adds the integer to the `const char*` of the literal (pointer
arithmetic), so the constructed string is the literal's SUFFIX starting at
offset `vrf_id` — `"vrf_"` for 0, `"rf_"` for 1, `""` for 4, and
out-of-bounds (undefined behaviour, modelled as `""`) for larger ids.  It
is never the concatenation `"vrf_<id>"`. -/
def cpp_vrf_name (vrf_id : Nat) : String :=
  String.mk (List.drop vrf_id "vrf_".toList)

/-- Embedding of `SwitchStateBase::vpp_add_ip_vrf`
(SwitchStateBaseRif.cpp:1172).  `dpVrfAddRet` is the status `ip_vrf_add`
would return if called.  Returns the int result, the map after the call,
and the dataplane calls issued.  An existing entry (null or not) returns
immediately; otherwise `!vrf_id || ip_vrf_add(...) == 0` short-circuits,
and on success the descriptor is registered and the flow hash
programmed. -/
def vpp_add_ip_vrf (dpVrfAddRet : Int) (objectId : Nat) (vrf_id : Nat)
    (vmap : VrfMap) : Int × VrfMap × List VrfCall :=
  match mFind vmap objectId with
  | some _ => (0, vmap, [])
  | none =>
    let vrf_name := cpp_vrf_name vrf_id
    if vrf_id = 0 then
      (0, mSet vmap objectId (some ⟨objectId, vrf_id, vrf_name, false⟩),
        [VrfCall.flowHashSet vrf_id vrf_flow_hash_mask CFamily.inet])
    else if dpVrfAddRet = 0 then
      (0, mSet vmap objectId (some ⟨objectId, vrf_id, vrf_name, false⟩),
        [VrfCall.ipVrfAdd vrf_id vrf_name false,
         VrfCall.flowHashSet vrf_id vrf_flow_hash_mask CFamily.inet])
    else
      (0, vmap, [VrfCall.ipVrfAdd vrf_id vrf_name false])

/-- Embedding of `SwitchStateBase::vpp_del_ip_vrf`
(SwitchStateBaseRif.cpp:1204): when a non-null descriptor is registered,
issue the dataplane delete with the stored name/family and erase the
entry; otherwise a silent no-op. -/
def vpp_del_ip_vrf (objectId : Nat) (vmap : VrfMap) :
    Int × VrfMap × List VrfCall :=
  match mFind vmap objectId with
  | some (some sw) =>
    (0, mErase vmap objectId,
      [VrfCall.ipVrfDel sw.m_vrf_id sw.m_vrf_name sw.m_is_ipv6])
  | some none => (0, vmap, [])
  | none => (0, vmap, [])

/-! ### Admin-state / MTU propagation guards -/

/-- Environment of the admin-state/MTU setters: the
`is_ip_nbr_active()` guard, `getTapNameFromPortId` and
`tap_to_hwif_name`. -/
structure IfEnv where
  ipNbrActive : Bool
  getTapNameFromPortId : Nat → Option String
  tapToHwif : String → String

/-- Embedding of `SwitchStateBase::vpp_get_hwif_name`
(SwitchStateBaseRif.cpp:336). -/
def vpp_get_hwif_name (env : IfEnv) (object_id : Nat) (vlan_id : Nat) :
    Option String :=
  match env.getTapNameFromPortId object_id with
  | none => none
  | some if_name => some (mk_linux_ifname (env.tapToHwif if_name) vlan_id)

/-- Embedding of `SwitchStateBase::vpp_set_interface_state`
(SwitchStateBaseRif.cpp:420): a success no-op when the IP-neighbor
subsystem is inactive, otherwise `interface_set_state` on the resolved
hardware name. -/
def vpp_set_interface_state (env : IfEnv) (object_id : Nat) (vlan_id : Nat)
    (is_up : Bool) : SaiStatus × List DpCall :=
  if env.ipNbrActive = false then (SaiStatus.success, [])
  else
    match vpp_get_hwif_name env object_id vlan_id with
    | some hw => (SaiStatus.success, [DpCall.setIntfState hw is_up])
    | none => (SaiStatus.success, [])

/-- Embedding of `SwitchStateBase::vpp_set_port_mtu`
(SwitchStateBaseRif.cpp:441). -/
def vpp_set_port_mtu (env : IfEnv) (object_id : Nat) (vlan_id : Nat)
    (mtu : Nat) : SaiStatus × List DpCall :=
  if env.ipNbrActive = false then (SaiStatus.success, [])
  else
    match vpp_get_hwif_name env object_id vlan_id with
    | some hw => (SaiStatus.success, [DpCall.hwSetMtu hw mtu])
    | none => (SaiStatus.success, [])

/-- Embedding of `SwitchStateBase::vpp_set_interface_mtu`
(SwitchStateBaseRif.cpp:462). -/
def vpp_set_interface_mtu (env : IfEnv) (object_id : Nat) (vlan_id : Nat)
    (mtu : Nat) (t : Int) : SaiStatus × List DpCall :=
  if env.ipNbrActive = false then (SaiStatus.success, [])
  else
    match vpp_get_hwif_name env object_id vlan_id with
    | some hw => (SaiStatus.success, [DpCall.swSetMtu hw mtu t])
    | none => (SaiStatus.success, [])

/-! ### Loopback instance allocator and dual-stack coordinator -/

/-- The loopback-related mutable state: `lpbInstMap`, `lpbIpToIfMap`,
`lpbIpToHostIfMap`, the `std::set<int> availableInstances` (kept as an
ascending sorted list; the set type is declared in the header outside
`src/`, its ordered semantics match spec §3/§4.4), and the static counter
`currentMaxInstance`. -/
structure LpbState where
  lpbInstMap : List (String × Nat)
  lpbIpToIfMap : List (String × String)
  lpbIpToHostIfMap : List (String × String)
  availableInstances : List Nat
  currentMaxInstance : Nat
deriving DecidableEq

/-- Embedding of `SwitchStateBase::getNextLoopbackInstance`
(SwitchStateBaseRif.cpp:279): pop `*availableInstances.begin()` (the
smallest element) when the free set is non-empty, otherwise return the
counter and increment it. -/
def getNextLoopbackInstance (s : LpbState) : Nat × LpbState :=
  match s.availableInstances with
  | [] =>
    (s.currentMaxInstance,
      { s with currentMaxInstance := s.currentMaxInstance + 1 })
  | x :: xs => (x, { s with availableInstances := xs })

/-- Ordered no-duplicate insertion (`std::set<int>::insert`). -/
def setInsertNat (x : Nat) : List Nat → List Nat
  | [] => [x]
  | y :: ys =>
    if x < y then x :: y :: ys
    else if x = y then y :: ys
    else y :: setInsertNat x ys

/-- Embedding of `SwitchStateBase::markLoopbackInstanceDeleted`
(SwitchStateBaseRif.cpp:298). -/
def markLoopbackInstanceDeleted (s : LpbState) (inst : Nat) : LpbState :=
  { s with availableInstances := setInsertNat inst s.availableInstances }

/-- `getInstanceFromHostIfname`: drop the 8-character `"Loopback"` head of
the host name and `std::stoi` the rest. -/
def getInstanceFromHostIfname (interfaceName : String) : Nat :=
  stoiNat (String.mk (List.drop 8 interfaceName.toList))

/-- The deserialized `sai_route_entry_t` as the loopback path consumes it:
the destination IP string `extractDestinationIP` produces, the address
family, and the destination address/mask data `create_route_prefix` turns
into a `vpp_ip_route_t` (the mask is carried as its
`getPrefixLenFromAddrMask` length). -/
structure RouteEntry where
  destIP : String
  family : SaiFamily
  addrBytes : List Nat
  maskLen : Nat
deriving DecidableEq

/-- Embedding of `create_route_prefix` (SwitchStateBaseRif.cpp:222): the
two-family switch filling the route from the destination. -/
def create_route_pfx (r : RouteEntry) : VppIpRoute :=
  match r.family with
  | SaiFamily.ipv4 => ⟨CFamily.inet, r.addrBytes, r.maskLen⟩
  | SaiFamily.ipv6 => ⟨CFamily.inet6, r.addrBytes, r.maskLen⟩

/-- Environment of the loopback path: what the OS reverse lookup
`get_intf_name_for_prefix` returns for this route's destination (the
wrapper yields `""` when nothing is found). -/
structure LpbEnv where
  intfNameForDest : String
deriving DecidableEq

/-- Embedding of `SwitchStateBase::eraseDualStackEntries`
(SwitchStateBaseRif.cpp:937): when the destination IP is present in both
maps, sweep-erase EVERY entry of `lpbIpToIfMap` whose value equals the
destination's dataplane name and every entry of `lpbIpToHostIfMap` whose
value equals the destination's host name; otherwise do nothing. -/
def eraseDualStackEntries (destIP : String) (s : LpbState) : LpbState :=
  match mFind s.lpbIpToIfMap destIP, mFind s.lpbIpToHostIfMap destIP with
  | some interfaceName, some hostIfName =>
    { s with
      lpbIpToIfMap :=
        s.lpbIpToIfMap.filter (fun p => decide (p.2 ≠ interfaceName)),
      lpbIpToHostIfMap :=
        s.lpbIpToHostIfMap.filter (fun p => decide (p.2 ≠ hostIfName)) }
  | _, _ => s

/-- Embedding of `SwitchStateBase::vpp_add_del_lpb_intf_ip_addr`
(SwitchStateBaseRif.cpp:970).  Add: allocate an instance, create
`loop<n>`, record the instance and IP maps, program the destination
prefix, bring the construct up, discover the host interface, and
remove/re-add the host loopback address around LCP tap creation.  Remove:
look up the names and instance (`operator[]` reads, default-inserting),
delete the dataplane loopback, erase the instance entry, sweep the
dual-stack maps, and release the instance. -/
def vpp_add_del_lpb_intf_ip_addr (env : LpbEnv) (r : RouteEntry)
    (s : LpbState) (is_add : Bool) : SaiStatus × LpbState × List DpCall :=
  let destIP := r.destIP
  if is_add then
    let ai := getNextLoopbackInstance s
    let inst := ai.1
    let s1 := ai.2
    let interfaceName := "loop" ++ toString inst
    let s2 := { s1 with lpbInstMap := mSet s1.lpbInstMap interfaceName inst }
    let s3 :=
      { s2 with lpbIpToIfMap := mSet s2.lpbIpToIfMap destIP interfaceName }
    let route := create_route_pfx r
    let hostIfname := env.intfNameForDest
    let s4 :=
      { s3 with
        lpbIpToHostIfMap := mSet s3.lpbIpToHostIfMap destIP hostIfname }
    (SaiStatus.success, s4,
      [DpCall.createLoopback interfaceName inst,
       DpCall.refreshInterfacesList,
       DpCall.addrAddDel interfaceName route true,
       DpCall.setIntfState interfaceName true,
       DpCall.osLoopbackCfg false hostIfname destIP route.len,
       DpCall.lcpCreate interfaceName hostIfname true,
       DpCall.osLoopbackCfg true hostIfname destIP route.len])
  else
    let g1 := mGetIns s.lpbIpToIfMap destIP ""
    let interfaceName := g1.1
    let s1 := { s with lpbIpToIfMap := g1.2 }
    let g2 := mGetIns s1.lpbIpToHostIfMap destIP ""
    let s2 := { s1 with lpbIpToHostIfMap := g2.2 }
    let g3 := mGetIns s2.lpbInstMap interfaceName 0
    let inst := g3.1
    let s3 := { s2 with lpbInstMap := g3.2 }
    let s4 := { s3 with lpbInstMap := mErase s3.lpbInstMap interfaceName }
    let s5 := eraseDualStackEntries destIP s4
    let s6 := markLoopbackInstanceDeleted s5 inst
    (SaiStatus.success, s6,
      [DpCall.deleteLoopback interfaceName inst,
       DpCall.refreshInterfacesList])

/-- Outcome of `process_interface_loopback`: the returned status, the
`isLoopback` out-parameter, the loopback state after the call and the
dataplane calls issued. -/
structure LpbOutcome where
  status : SaiStatus
  isLoopback : Bool
  state : LpbState
  calls : List DpCall
deriving DecidableEq

/-- Embedding of `SwitchStateBase::process_interface_loopback`
(SwitchStateBaseRif.cpp:895): resolve the host interface name (OS reverse
lookup on add, `lpbIpToHostIfMap[destinationIP]` on remove), classify it
by the `"Loopback"` name pattern, and either record the dual-stack
mappings (add with an already-instantiated `loop<n>`) or drive
`vpp_add_del_lpb_intf_ip_addr`. -/
def process_interface_loopback (env : LpbEnv) (r : RouteEntry)
    (s : LpbState) (is_add : Bool) : LpbOutcome :=
  let destIP := r.destIP
  let pre : String × LpbState :=
    if is_add then (env.intfNameForDest, s)
    else
      let g := mGetIns s.lpbIpToHostIfMap destIP ""
      (g.1, { s with lpbIpToHostIfMap := g.2 })
  let interfaceName := pre.1
  let s0 := pre.2
  let isLpb := strContains interfaceName "Loopback"
  if isLpb then
    let vppIfName := "loop" ++ toString (getInstanceFromHostIfname
      interfaceName)
    if is_add && (mFind s0.lpbInstMap vppIfName).isSome then
      let s1 :=
        { s0 with lpbIpToIfMap := mSet s0.lpbIpToIfMap destIP vppIfName }
      let s2 :=
        { s1 with
          lpbIpToHostIfMap :=
            mSet s1.lpbIpToHostIfMap destIP interfaceName }
      ⟨SaiStatus.success, true, s2, []⟩
    else
      let t := vpp_add_del_lpb_intf_ip_addr env r s0 is_add
      ⟨SaiStatus.success, true, t.2.1, t.2.2⟩
  else
    ⟨SaiStatus.success, false, s0, []⟩

/-! ### Concrete states and environments used by the scenarios -/

/-- The engine's initial loopback state (empty maps, counter 0). -/
def lpbState0 : LpbState := ⟨[], [], [], [], 0⟩

/-- OS reverse lookup answering `"Loopback0"` (the dual-stack host
loopback device of the scenario). -/
def lpbEnvEx : LpbEnv := ⟨"Loopback0"⟩

/-- The v4 route `10.0.0.1/32` of the dual-stack scenario. -/
def rEntry4 : RouteEntry := ⟨"10.0.0.1", SaiFamily.ipv4, [10, 0, 0, 1], 32⟩

/-- The v6 route of the dual-stack scenario, resolving to the same host
loopback device. -/
def rEntry6 : RouteEntry :=
  ⟨"2001:db8::1", SaiFamily.ipv6, [32, 1, 13, 184], 128⟩

/-- Dual-stack scenario, step 1: v4 loopback route add. -/
def c2o1 : LpbOutcome :=
  process_interface_loopback lpbEnvEx rEntry4 lpbState0 true

/-- Dual-stack scenario, step 2: v6 route add on the same host device. -/
def c2o2 : LpbOutcome :=
  process_interface_loopback lpbEnvEx rEntry6 c2o1.state true

/-- Dual-stack scenario, step 3: remove only the v4 destination. -/
def c2o3 : LpbOutcome :=
  process_interface_loopback lpbEnvEx rEntry4 c2o2.state false

/-- Dual-stack scenario, step 4: remove the v6 destination as well. -/
def c2o4 : LpbOutcome :=
  process_interface_loopback lpbEnvEx rEntry6 c2o3.state false

/-- Allocator scenario: state after allocating instance 0. -/
def c6s1 : LpbState := (getNextLoopbackInstance lpbState0).2

/-- Allocator scenario: state after allocating instances 0, 1. -/
def c6s2 : LpbState := (getNextLoopbackInstance c6s1).2

/-- Allocator scenario: state after allocating instances 0, 1, 2. -/
def c6s3 : LpbState := (getNextLoopbackInstance c6s2).2

/-- Allocator scenario: instance 1 released. -/
def c6s4 : LpbState := markLoopbackInstanceDeleted c6s3 1

/-- Allocator scenario: state after re-allocating (yields 1). -/
def c6s5 : LpbState := (getNextLoopbackInstance c6s4).2

/-- A loopback state with a non-trivial free set, for the allocator
witness. -/
def c6sEx : LpbState := ⟨[], [], [], [2, 5], 7⟩

/-! ### Theorems -/

theorem mkVppRoute_ok (p : ResolvedPfx) (h : p.family ≠ CFamily.other) :
    mkVppRouteFromResolved p = Except.ok (routeOfResolved p) := by
  cases hf : p.family with
  | inet => simp [mkVppRouteFromResolved, hf]
  | inet6 => simp [mkVppRouteFromResolved, hf]
  | other => exact absurd hf h

/-- Conclusion of claim C6: the allocator pops the smallest free element,
else advances the high-water counter, and the 0,1,2-allocate /
release-1 / reallocate scenario yields 1 then 3. -/
def C6Concl (s : LpbState) : Prop :=
  (s.availableInstances = [] →
    getNextLoopbackInstance s =
      (s.currentMaxInstance,
        { s with currentMaxInstance := s.currentMaxInstance + 1 })) ∧
  (∀ x xs, s.availableInstances = x :: xs →
    (getNextLoopbackInstance s).1 = x ∧
    (∀ y ∈ s.availableInstances, x ≤ y) ∧
    (getNextLoopbackInstance s).2 = { s with availableInstances := xs }) ∧
  ((getNextLoopbackInstance lpbState0).1 = 0 ∧
    (getNextLoopbackInstance c6s1).1 = 1 ∧
    (getNextLoopbackInstance c6s2).1 = 2 ∧
    (getNextLoopbackInstance c6s4).1 = 1 ∧
    (getNextLoopbackInstance c6s5).1 = 3)

/-- C6: `getNextLoopbackInstance` returns the smallest element of the free
set and removes it when the set is non-empty (the set invariant being that
the list is sorted ascending, as `std::set<int>` keeps it), otherwise
returns the high-water counter and increments it; allocating 0,1,2,
releasing 1, then allocating twice yields 1 and then 3. -/
theorem claim_C6 (s : LpbState)
    (h : List.Chain' (· < ·) s.availableInstances) : C6Concl s := by
  refine ⟨?_, ?_, by decide⟩
  · intro he
    simp [getNextLoopbackInstance, he]
  · intro x xs hxx
    have hp := (List.chain'_iff_pairwise.mp h)
    rw [hxx] at hp
    have hall := (List.pairwise_cons.mp hp).1
    refine ⟨by simp [getNextLoopbackInstance, hxx], ?_,
      by simp [getNextLoopbackInstance, hxx]⟩
    intro y hy
    rw [hxx] at hy
    rcases List.mem_cons.mp hy with h1 | h1
    · exact le_of_eq h1.symm
    · exact le_of_lt (hall y h1)

/-- Witness for C6 at a concrete state with free set `[2, 5]`. -/
theorem claim_C6_witness : C6Concl c6sEx :=
  claim_C6 c6sEx (by norm_num [c6sEx, List.chain'_cons])

/-- C9: when `is_ip_nbr_active()` is false, the admin-state and MTU
setters return success immediately and issue no dataplane call. -/
theorem claim_C9 (env : IfEnv) (oid vlan mtu : Nat) (up : Bool) (t : Int)
    (h : env.ipNbrActive = false) :
    vpp_set_interface_state env oid vlan up = (SaiStatus.success, []) ∧
    vpp_set_port_mtu env oid vlan mtu = (SaiStatus.success, []) ∧
    vpp_set_interface_mtu env oid vlan mtu t = (SaiStatus.success, []) := by
  simp [vpp_set_interface_state, vpp_set_port_mtu, vpp_set_interface_mtu, h]

/-- Environment with the IP-neighbor subsystem inactive, for the C9
witness. -/
def ifEnvEx : IfEnv := ⟨false, fun _ => some "tap0", fun s => s⟩

/-- Witness for C9 at a concrete inactive environment. -/
theorem claim_C9_witness :
    vpp_set_interface_state ifEnvEx 1 0 true = (SaiStatus.success, []) ∧
    vpp_set_port_mtu ifEnvEx 1 0 9100 = (SaiStatus.success, []) ∧
    vpp_set_interface_mtu ifEnvEx 1 0 9100 2 = (SaiStatus.success, []) :=
  claim_C9 ifEnvEx 1 0 9100 true 2 rfl

/-- C5: acquiring a VRF whose object id is already registered returns 0
without touching the map and without any dataplane call. -/
theorem claim_C5 (r : Int) (objectId vrf_id : Nat) (vmap : VrfMap)
    (d : Option IpVrfInfo) (h : mFind vmap objectId = some d) :
    vpp_add_ip_vrf r objectId vrf_id vmap = (0, vmap, []) := by
  simp [vpp_add_ip_vrf, h]

/-- Witness for C5: a second acquisition for object id 7 after a first
acquisition created the descriptor. -/
theorem claim_C5_witness :
    vpp_add_ip_vrf 0 7 9 (vpp_add_ip_vrf 0 7 9 []).2.1 =
      (0, (vpp_add_ip_vrf 0 7 9 []).2.1, []) :=
  claim_C5 0 7 9 (vpp_add_ip_vrf 0 7 9 []).2.1
    (some ⟨7, 9, cpp_vrf_name 9, false⟩) (by decide)

/-- C3: the code's `"vrf_" + vrf_id` is C pointer arithmetic on the
literal, so acquiring a fresh VRF with numeric id 1 registers a descriptor
named `"rf_"` (the literal's suffix) and passes `"rf_"` to the dataplane
create — never the decimal concatenation `"vrf_1"` the spec describes. -/
theorem claim_C3_code_behavior :
    cpp_vrf_name 1 = "rf_" ∧ cpp_vrf_name 1 ≠ "vrf_1" ∧
    vpp_add_ip_vrf 0 7 1 [] =
      (0, [(7, some ⟨7, 1, "rf_", false⟩)],
        [VrfCall.ipVrfAdd 1 "rf_" false,
         VrfCall.flowHashSet 1 vrf_flow_hash_mask CFamily.inet]) := by
  refine ⟨by decide, by decide, by decide⟩

/-- C2 counterexample: in the dual-stack scenario (v4 add, v6 add, v4
remove), the v6 destination's mappings to `loop0`/`Loopback0` do NOT
survive the v4 removal — `eraseDualStackEntries` sweeps every entry whose
value matches the shared names. -/
theorem claim_C2_counterexample :
    ¬ (mFind c2o3.state.lpbIpToIfMap "2001:db8::1" = some "loop0" ∧
       mFind c2o3.state.lpbIpToHostIfMap "2001:db8::1" =
         some "Loopback0") := by
  decide

/-- C2 as amended: the v4 add creates `loop0` (instance 0); the v6 add
merges onto it (no second instance, no dataplane call, both destinations
mapped to `loop0`); removing only the v4 destination deletes the dataplane
loopback, sweep-erases BOTH destinations' map entries, and already
releases instance 0 to the free set; the subsequent v6 removal finds no
loopback mapping and is a no-op apart from `operator[]` default-inserting
an empty host name. -/
theorem claim_C2_amended :
    mFind c2o1.state.lpbInstMap "loop0" = some 0 ∧
    mFind c2o1.state.lpbIpToIfMap "10.0.0.1" = some "loop0" ∧
    mFind c2o1.state.lpbIpToHostIfMap "10.0.0.1" = some "Loopback0" ∧
    c2o1.calls.head? = some (DpCall.createLoopback "loop0" 0) ∧
    c2o2.state.lpbInstMap = c2o1.state.lpbInstMap ∧
    c2o2.state.availableInstances = [] ∧
    c2o2.state.currentMaxInstance = c2o1.state.currentMaxInstance ∧
    c2o2.calls = [] ∧
    mFind c2o2.state.lpbIpToIfMap "10.0.0.1" = some "loop0" ∧
    mFind c2o2.state.lpbIpToIfMap "2001:db8::1" = some "loop0" ∧
    mFind c2o2.state.lpbIpToHostIfMap "2001:db8::1" = some "Loopback0" ∧
    c2o3.calls =
      [DpCall.deleteLoopback "loop0" 0, DpCall.refreshInterfacesList] ∧
    c2o3.state.lpbInstMap = [] ∧
    c2o3.state.lpbIpToIfMap = [] ∧
    c2o3.state.lpbIpToHostIfMap = [] ∧
    c2o3.state.availableInstances = [0] ∧
    c2o4.calls = [] ∧
    c2o4.state.availableInstances = [0] ∧
    c2o4.state.lpbIpToHostIfMap = [("2001:db8::1", "")] := by
  decide

/-! ### Example environments for the address-path claims -/

/-- A resolved live address `10.1.1.1/24` (family `AF_INET`). -/
def resolvedEx : ResolvedPfx := ⟨CFamily.inet, [10, 1, 1, 1], 24⟩

/-- A resolved value carrying an unrecognized address family. -/
def resolvedBad : ResolvedPfx := ⟨CFamily.other, [], 0⟩

/-- A requested v4 network `10.1.1.0/24`. -/
def pfxEx : SaiIpPfx := ⟨SaiFamily.ipv4, [10, 1, 1, 0], [255, 255, 255, 0]⟩

/-- Router-interface environment where every lookup succeeds and the
dataplane accepts every call. -/
def rifEnvEx : RifEnv :=
  ⟨some RIF_PORT, some 1, fun _ => ObjType.port, none,
   fun _ => some "Ethernet0", fun _ _ => some "10.1.1.1/24",
   fun _ => resolvedEx, fun _ => "10.1.1.1/24", fun _ => resolvedEx,
   fun _ => "10.1.1.0/24", fun s => "hw" ++ s, fun _ _ _ => 0⟩

/-- Like `rifEnvEx` but the live OS has no matching address. -/
def rifEnvMiss : RifEnv :=
  ⟨some RIF_PORT, some 1, fun _ => ObjType.port, none,
   fun _ => some "Ethernet0", fun _ _ => none,
   fun _ => resolvedEx, fun _ => "10.1.1.1/24", fun _ => resolvedEx,
   fun _ => "10.1.1.0/24", fun s => "hw" ++ s, fun _ _ _ => 0⟩

/-- Like `rifEnvEx` but the resolved address parses to an unrecognized
family. -/
def rifEnvBad : RifEnv :=
  ⟨some RIF_PORT, some 1, fun _ => ObjType.port, none,
   fun _ => some "Ethernet0", fun _ _ => some "badaddr",
   fun _ => resolvedBad, fun _ => "x", fun _ => resolvedBad,
   fun _ => "10.1.1.0/24", fun s => "hw" ++ s, fun _ _ _ => 0⟩

/-- Like `rifEnvEx` but the dataplane rejects delete calls. -/
def rifEnvDpFail : RifEnv :=
  ⟨some RIF_PORT, some 1, fun _ => ObjType.port, none,
   fun _ => some "Ethernet0", fun _ _ => some "10.1.1.1/24",
   fun _ => resolvedEx, fun _ => "10.1.1.1/24", fun _ => resolvedEx,
   fun _ => "10.1.1.0/24", fun s => "hw" ++ s,
   fun _ _ isAdd => if isAdd then 0 else 1⟩

/-- No-router-interface environment where every lookup succeeds. -/
def norifEnvEx : NorifEnv :=
  ⟨some "Ethernet0", fun _ _ => some "10.1.1.1/24", fun _ => resolvedEx,
   fun _ => "10.1.1.1/24", fun _ => resolvedEx, fun s => "hw" ++ s,
   fun _ _ _ => 0⟩

/-- Like `norifEnvEx` but no host interface owns the requested network. -/
def norifEnvMiss : NorifEnv :=
  ⟨none, fun _ _ => none, fun _ => resolvedEx, fun _ => "10.1.1.1/24",
   fun _ => resolvedEx, fun s => "hw" ++ s, fun _ _ _ => 0⟩

/-- Like `norifEnvEx` but the owning device has no matching address. -/
def norifEnvAddrMiss : NorifEnv :=
  ⟨some "Ethernet0", fun _ _ => none, fun _ => resolvedEx,
   fun _ => "10.1.1.1/24", fun _ => resolvedEx, fun s => "hw" ++ s,
   fun _ _ _ => 0⟩

/-- Like `norifEnvEx` but the resolved address parses to an unrecognized
family. -/
def norifEnvBad : NorifEnv :=
  ⟨some "Ethernet0", fun _ _ => some "badaddr", fun _ => resolvedBad,
   fun _ => "x", fun _ => resolvedBad, fun s => "hw" ++ s, fun _ _ _ => 0⟩

/-- Like `norifEnvEx` but the dataplane rejects delete calls. -/
def norifEnvDpFail : NorifEnv :=
  ⟨some "Ethernet0", fun _ _ => some "10.1.1.1/24", fun _ => resolvedEx,
   fun _ => "10.1.1.1/24", fun _ => resolvedEx, fun s => "hw" ++ s,
   fun _ _ isAdd => if isAdd then 0 else 1⟩

/-- A store holding the add-path record under the composite key of
`rifEnvDpFail` / `pfxEx`. -/
def storeRD : PfxMap :=
  [(rifKey rifEnvDpFail pfxEx "Ethernet0", "10.1.1.1/24")]

/-- A store holding a no-rif record under the key `"key1"`. -/
def storeND : PfxMap := [("key1", "Ethernet0@10.1.1.1/24")]

/-! ### Claims C1, C4, C7, C8, C10 -/

/-- Conclusion of claim C1: the add writes the resolved record under the
composite key and issues exactly one dataplane add; the remove on the
resulting store leaves the store without that key and issues exactly one
dataplane delete with the same interface/route. -/
def C1Concl (env : RifEnv) (rp : SaiIpPfx) (store : PfxMap)
    (ifn res : String) : Prop :=
  mFind (vpp_add_del_intf_ip_addr env rp store true).store
      (rifKey env rp ifn) =
    some (env.serializeResolved (env.parsePfx res)) ∧
  (vpp_add_del_intf_ip_addr env rp store true).calls =
    [DpCall.addrAddDel (rifHwName env ifn)
      (routeOfResolved (env.parsePfx res)) true] ∧
  mFind (vpp_add_del_intf_ip_addr env rp
      (vpp_add_del_intf_ip_addr env rp store true).store false).store
      (rifKey env rp ifn) = none ∧
  (vpp_add_del_intf_ip_addr env rp
      (vpp_add_del_intf_ip_addr env rp store true).store false).calls =
    [DpCall.addrAddDel (rifHwName env ifn)
      (routeOfResolved (env.parsePfx res)) false]

/-- C1: an address add that resolves a live address, followed by the
matching remove, builds the identical composite key on both paths, ends
with the prefix state store not containing that key, and issues exactly
one dataplane add and one dataplane delete through
`interface_ip_address_add_del`. -/
theorem claim_C1 (env : RifEnv) (rp : SaiIpPfx) (store : PfxMap) (rt : Int)
    (oid : Nat) (ifn res : String)
    (h1 : env.rifType = some rt)
    (h2 : rt = RIF_PORT ∨ rt = RIF_SUB_PORT ∨ rt = RIF_LOOPBACK)
    (h3 : env.portId = some oid)
    (h4 : env.objectTypeQuery oid = ObjType.port)
    (h5 : env.getTapNameFromPortId oid = some ifn)
    (h6 : env.resolveAddr (mk_linux_ifname ifn (env.outerVlan.getD 0))
      (rp.family == SaiFamily.ipv6) = some res)
    (h7 : env.parseStored (env.serializeResolved (env.parsePfx res)) =
      env.parsePfx res)
    (h8 : (env.parsePfx res).family ≠ CFamily.other) :
    C1Concl env rp store ifn res := by
  have hroute := mkVppRoute_ok (env.parsePfx res) h8
  rcases h2 with h2 | h2 | h2 <;> subst h2 <;>
    simp [C1Concl, vpp_add_del_intf_ip_addr, h1, h3, h4, h5, h6, h7,
      addr_dp_tail, hroute, rifHwName, rifKey, RIF_PORT, RIF_SUB_PORT,
      RIF_LOOPBACK, mFind_mSet, vpp_intf_remove_pfx_entry, mFind_mErase]

/-- Witness for C1 at a fully concrete environment. -/
theorem claim_C1_witness : C1Concl rifEnvEx pfxEx [] "Ethernet0"
    "10.1.1.1/24" :=
  claim_C1 rifEnvEx pfxEx [] RIF_PORT 1 "Ethernet0" "10.1.1.1/24" rfl
    (Or.inl rfl) rfl rfl rfl rfl rfl (by decide)

/-- C4 counterexample: a no-rif add whose reverse interface lookup finds
nothing returns `SAI_STATUS_FAILURE`, not the success the claim
asserts. -/
theorem claim_C4_counterexample :
    (vpp_add_del_intf_ip_addr_norif norifEnvMiss "key1" SaiFamily.ipv4 []
        true).result ≠ Except.ok SaiStatus.success := by
  decide

/-- C4 as amended: an add whose live address resolution
(`vpp_get_intf_ip_address`) finds nothing is a success no-op in both
functions (store unmodified, no dataplane call); but a no-rif add whose
reverse interface lookup (`vpp_get_intf_name_for_prefix`) finds nothing
returns failure — still leaving the store unmodified and issuing no
dataplane call. -/
theorem claim_C4_amended :
    (∀ (env : RifEnv) (rp : SaiIpPfx) (store : PfxMap) (rt : Int)
      (oid : Nat) (ifn : String),
      env.rifType = some rt →
      (rt = RIF_PORT ∨ rt = RIF_SUB_PORT ∨ rt = RIF_LOOPBACK) →
      env.portId = some oid →
      env.objectTypeQuery oid = ObjType.port →
      env.getTapNameFromPortId oid = some ifn →
      env.resolveAddr (mk_linux_ifname ifn (env.outerVlan.getD 0))
        (rp.family == SaiFamily.ipv6) = none →
      vpp_add_del_intf_ip_addr env rp store true =
        ⟨Except.ok SaiStatus.success, store, []⟩) ∧
    (∀ (env : NorifEnv) (key : String) (fam : SaiFamily) (store : PfxMap)
      (fullIf : String),
      env.intfNameForDest = some fullIf →
      env.resolveAddr fullIf (fam == SaiFamily.ipv6) = none →
      vpp_add_del_intf_ip_addr_norif env key fam store true =
        ⟨Except.ok SaiStatus.success, store, []⟩) ∧
    (∀ (env : NorifEnv) (key : String) (fam : SaiFamily) (store : PfxMap),
      env.intfNameForDest = none →
      vpp_add_del_intf_ip_addr_norif env key fam store true =
        ⟨Except.ok SaiStatus.failure, store, []⟩) := by
  refine ⟨?_, ?_, ?_⟩
  · intro env rp store rt oid ifn h1 h2 h3 h4 h5 h6
    rcases h2 with h2 | h2 | h2 <;> subst h2 <;>
      simp [vpp_add_del_intf_ip_addr, h1, h3, h4, h5, h6, RIF_PORT,
        RIF_SUB_PORT, RIF_LOOPBACK]
  · intro env key fam store fullIf n1 n2
    simp [vpp_add_del_intf_ip_addr_norif, n1, n2]
  · intro env key fam store n1
    simp [vpp_add_del_intf_ip_addr_norif, n1]

/-- Witness for C4 at concrete resolution-miss environments. -/
theorem claim_C4_witness :
    vpp_add_del_intf_ip_addr rifEnvMiss pfxEx [] true =
      ⟨Except.ok SaiStatus.success, [], []⟩ ∧
    vpp_add_del_intf_ip_addr_norif norifEnvAddrMiss "key1" SaiFamily.ipv4
      [] true = ⟨Except.ok SaiStatus.success, [], []⟩ ∧
    vpp_add_del_intf_ip_addr_norif norifEnvMiss "key1" SaiFamily.ipv4 []
      true = ⟨Except.ok SaiStatus.failure, [], []⟩ :=
  ⟨claim_C4_amended.1 rifEnvMiss pfxEx [] RIF_PORT 1 "Ethernet0" rfl
      (Or.inl rfl) rfl rfl rfl rfl,
   claim_C4_amended.2.1 norifEnvAddrMiss "key1" SaiFamily.ipv4 []
      "Ethernet0" rfl rfl,
   claim_C4_amended.2.2 norifEnvMiss "key1" SaiFamily.ipv4 [] rfl⟩

/-- C7: a remove whose composite key has no store entry is a success
no-op (store unchanged, no dataplane call) in both address functions. -/
theorem claim_C7 :
    (∀ (env : RifEnv) (rp : SaiIpPfx) (store : PfxMap) (rt : Int)
      (oid : Nat) (ifn : String),
      env.rifType = some rt →
      (rt = RIF_PORT ∨ rt = RIF_SUB_PORT ∨ rt = RIF_LOOPBACK) →
      env.portId = some oid →
      env.objectTypeQuery oid = ObjType.port →
      env.getTapNameFromPortId oid = some ifn →
      mFind store (rifKey env rp ifn) = none →
      vpp_add_del_intf_ip_addr env rp store false =
        ⟨Except.ok SaiStatus.success, store, []⟩) ∧
    (∀ (env : NorifEnv) (key : String) (fam : SaiFamily) (store : PfxMap),
      mFind store key = none →
      vpp_add_del_intf_ip_addr_norif env key fam store false =
        ⟨Except.ok SaiStatus.success, store, []⟩) := by
  refine ⟨?_, ?_⟩
  · intro env rp store rt oid ifn h1 h2 h3 h4 h5 hm
    rcases h2 with h2 | h2 | h2 <;> subst h2 <;>
      simp [vpp_add_del_intf_ip_addr, h1, h3, h4, h5, hm,
        RIF_PORT, RIF_SUB_PORT, RIF_LOOPBACK]
  · intro env key fam store hm
    simp [vpp_add_del_intf_ip_addr_norif, hm]

/-- Witness for C7 on empty stores. -/
theorem claim_C7_witness :
    vpp_add_del_intf_ip_addr rifEnvEx pfxEx [] false =
      ⟨Except.ok SaiStatus.success, [], []⟩ ∧
    vpp_add_del_intf_ip_addr_norif norifEnvEx "key1" SaiFamily.ipv4 []
      false = ⟨Except.ok SaiStatus.success, [], []⟩ :=
  ⟨claim_C7.1 rifEnvEx pfxEx [] RIF_PORT 1 "Ethernet0" rfl (Or.inl rfl)
      rfl rfl rfl rfl,
   claim_C7.2 norifEnvEx "key1" SaiFamily.ipv4 [] rfl⟩

/-- A store holding a router-interface record under the composite key of
`rifEnvBad` / `pfxEx` (whose stored value parses to an unrecognized
family), for the remove direction of C8. -/
def storeRBad : PfxMap := [(rifKey rifEnvBad pfxEx "Ethernet0", "x")]

/-- A store holding a no-rif record under the key `"key1"` whose stored
value parses to an unrecognized family under `norifEnvBad`. -/
def storeNBad : PfxMap := [("key1", "Ethernet0@x")]

/-- C8: on both the add and the remove paths of both address functions,
the family switch on the resolved address raises the fatal
`std::logic_error("Invalid family")` exactly when the family is neither
`AF_INET` nor `AF_INET6` (on add the family comes from the live
resolution, on remove from the stored entry), and that outcome is
distinguishable from every normal status return. -/
theorem claim_C8 (envR : RifEnv) (envN : NorifEnv) (rp : SaiIpPfx)
    (storeR storeN storeRrm storeNrm : PfxMap) (keyN : String)
    (fam : SaiFamily) (rt : Int) (oid : Nat)
    (ifn res fullIf resN storedR dataN : String)
    (h1 : envR.rifType = some rt)
    (h2 : rt = RIF_PORT ∨ rt = RIF_SUB_PORT ∨ rt = RIF_LOOPBACK)
    (h3 : envR.portId = some oid)
    (h4 : envR.objectTypeQuery oid = ObjType.port)
    (h5 : envR.getTapNameFromPortId oid = some ifn)
    (h6 : envR.resolveAddr (mk_linux_ifname ifn (envR.outerVlan.getD 0))
      (rp.family == SaiFamily.ipv6) = some res)
    (n1 : envN.intfNameForDest = some fullIf)
    (n2 : envN.resolveAddr fullIf (fam == SaiFamily.ipv6) = some resN)
    (hsR2 : mFind storeRrm (rifKey envR rp ifn) = some storedR)
    (hsN2 : mFind storeNrm keyN = some dataN) :
    ((vpp_add_del_intf_ip_addr envR rp storeR true).result =
        Except.error "Invalid family" ↔
      (envR.parsePfx res).family = CFamily.other) ∧
    ((vpp_add_del_intf_ip_addr_norif envN keyN fam storeN true).result =
        Except.error "Invalid family" ↔
      (envN.parsePfx resN).family = CFamily.other) ∧
    ((vpp_add_del_intf_ip_addr envR rp storeRrm false).result =
        Except.error "Invalid family" ↔
      (envR.parseStored storedR).family = CFamily.other) ∧
    ((vpp_add_del_intf_ip_addr_norif envN keyN fam storeNrm
          false).result = Except.error "Invalid family" ↔
      (envN.parseStored (vpp_deserialize_intf_data dataN).2).family =
        CFamily.other) ∧
    (∀ st : SaiStatus,
      (Except.error "Invalid family" : Except String SaiStatus) ≠
        Except.ok st) := by
  refine ⟨?_, ?_, ?_, ?_, fun st h => by cases h⟩
  · rcases h2 with h2 | h2 | h2 <;> subst h2 <;>
      cases hf : (envR.parsePfx res).family <;>
      simp [vpp_add_del_intf_ip_addr, h1, h3, h4, h5, h6, addr_dp_tail,
        mkVppRouteFromResolved, hf, RIF_PORT, RIF_SUB_PORT, RIF_LOOPBACK]
  · cases hf : (envN.parsePfx resN).family <;>
      simp [vpp_add_del_intf_ip_addr_norif, n1, n2, addr_dp_tail,
        mkVppRouteFromResolved, hf]
  · rcases h2 with h2 | h2 | h2 <;> subst h2 <;>
      cases hf : (envR.parseStored storedR).family <;>
      simp [vpp_add_del_intf_ip_addr, h1, h3, h4, h5, hsR2, addr_dp_tail,
        mkVppRouteFromResolved, hf, RIF_PORT, RIF_SUB_PORT, RIF_LOOPBACK,
        vpp_intf_remove_pfx_entry]
  · cases hf :
      (envN.parseStored (vpp_deserialize_intf_data dataN).2).family <;>
      simp [vpp_add_del_intf_ip_addr_norif, hsN2, addr_dp_tail,
        mkVppRouteFromResolved, hf, vpp_intf_remove_pfx_entry]

/-- Witness for C8 at environments whose resolved (add) and stored
(remove) addresses carry an unrecognized family, with the remove stores
holding entries under the composite keys. -/
theorem claim_C8_witness :
    ((vpp_add_del_intf_ip_addr rifEnvBad pfxEx [] true).result =
        Except.error "Invalid family" ↔
      (rifEnvBad.parsePfx "badaddr").family = CFamily.other) ∧
    ((vpp_add_del_intf_ip_addr_norif norifEnvBad "key1" SaiFamily.ipv4 []
          true).result = Except.error "Invalid family" ↔
      (norifEnvBad.parsePfx "badaddr").family = CFamily.other) ∧
    ((vpp_add_del_intf_ip_addr rifEnvBad pfxEx storeRBad false).result =
        Except.error "Invalid family" ↔
      (rifEnvBad.parseStored "x").family = CFamily.other) ∧
    ((vpp_add_del_intf_ip_addr_norif norifEnvBad "key1" SaiFamily.ipv4
          storeNBad false).result = Except.error "Invalid family" ↔
      (norifEnvBad.parseStored
          (vpp_deserialize_intf_data "Ethernet0@x").2).family =
        CFamily.other) ∧
    (∀ st : SaiStatus,
      (Except.error "Invalid family" : Except String SaiStatus) ≠
        Except.ok st) :=
  claim_C8 rifEnvBad norifEnvBad pfxEx [] [] storeRBad storeNBad "key1"
    SaiFamily.ipv4 RIF_PORT 1 "Ethernet0" "badaddr" "Ethernet0" "badaddr"
    "x" "Ethernet0@x" rfl (Or.inl rfl) rfl rfl rfl rfl rfl rfl (by decide)
    (by decide)

/-- C10 conclusion for the router-interface remove: dataplane delete
failure is reported, yet the store entry is already gone and a retry of
the same remove is a silent success no-op. -/
def C10ConclR (env : RifEnv) (rp : SaiIpPfx) (store : PfxMap)
    (ifn : String) : Prop :=
  (vpp_add_del_intf_ip_addr env rp store false).result =
    Except.ok SaiStatus.failure ∧
  mFind (vpp_add_del_intf_ip_addr env rp store false).store
    (rifKey env rp ifn) = none ∧
  vpp_add_del_intf_ip_addr env rp
      (vpp_add_del_intf_ip_addr env rp store false).store false =
    ⟨Except.ok SaiStatus.success,
      (vpp_add_del_intf_ip_addr env rp store false).store, []⟩

/-- C10 conclusion for the no-rif remove, analogous. -/
def C10ConclN (env : NorifEnv) (key : String) (fam : SaiFamily)
    (store : PfxMap) : Prop :=
  (vpp_add_del_intf_ip_addr_norif env key fam store false).result =
    Except.ok SaiStatus.failure ∧
  mFind (vpp_add_del_intf_ip_addr_norif env key fam store false).store
    key = none ∧
  vpp_add_del_intf_ip_addr_norif env key fam
      (vpp_add_del_intf_ip_addr_norif env key fam store false).store
      false =
    ⟨Except.ok SaiStatus.success,
      (vpp_add_del_intf_ip_addr_norif env key fam store false).store, []⟩

/-- C10: both remove paths erase the store entry before the dataplane
delete, so a failing delete returns failure with the entry already gone,
and retrying the remove is a silent success no-op. -/
theorem claim_C10 (envR : RifEnv) (envN : NorifEnv) (rp : SaiIpPfx)
    (storeR storeN : PfxMap) (keyN : String) (fam : SaiFamily) (rt : Int)
    (oid : Nat) (ifn storedR dataN : String)
    (h1 : envR.rifType = some rt)
    (h2 : rt = RIF_PORT ∨ rt = RIF_SUB_PORT ∨ rt = RIF_LOOPBACK)
    (h3 : envR.portId = some oid)
    (h4 : envR.objectTypeQuery oid = ObjType.port)
    (h5 : envR.getTapNameFromPortId oid = some ifn)
    (hsR : mFind storeR (rifKey envR rp ifn) = some storedR)
    (hfR : (envR.parseStored storedR).family ≠ CFamily.other)
    (hdR : envR.dpRet (rifHwName envR ifn)
      (routeOfResolved (envR.parseStored storedR)) false ≠ 0)
    (hsN : mFind storeN keyN = some dataN)
    (hfN : (envN.parseStored (vpp_deserialize_intf_data dataN).2).family ≠
      CFamily.other)
    (hdN : envN.dpRet
      (mk_linux_ifname
        (envN.tapToHwif
          (get_intf_vlanid (vpp_deserialize_intf_data dataN).1).1)
        (get_intf_vlanid (vpp_deserialize_intf_data dataN).1).2)
      (routeOfResolved
        (envN.parseStored (vpp_deserialize_intf_data dataN).2))
      false ≠ 0) :
    C10ConclR envR rp storeR ifn ∧ C10ConclN envN keyN fam storeN := by
  have hrR := mkVppRoute_ok (envR.parseStored storedR) hfR
  have hrN :=
    mkVppRoute_ok (envN.parseStored (vpp_deserialize_intf_data dataN).2)
      hfN
  simp only [rifHwName] at hdR
  constructor
  · rcases h2 with h2 | h2 | h2 <;> subst h2 <;>
      simp [C10ConclR, vpp_add_del_intf_ip_addr, h1, h3, h4, h5, hsR,
        hdR, hrR, addr_dp_tail, RIF_PORT, RIF_SUB_PORT,
        RIF_LOOPBACK, vpp_intf_remove_pfx_entry, mFind_mErase]
  · simp [C10ConclN, vpp_add_del_intf_ip_addr_norif, hsN, hdN, hrN,
      addr_dp_tail, vpp_intf_remove_pfx_entry, mFind_mErase]

/-- Witness for C10 at concrete dataplane-failing environments with the
entry present. -/
theorem claim_C10_witness :
    C10ConclR rifEnvDpFail pfxEx storeRD "Ethernet0" ∧
    C10ConclN norifEnvDpFail "key1" SaiFamily.ipv4 storeND :=
  claim_C10 rifEnvDpFail norifEnvDpFail pfxEx storeRD storeND "key1"
    SaiFamily.ipv4 RIF_PORT 1 "Ethernet0" "10.1.1.1/24"
    "Ethernet0@10.1.1.1/24" rfl (Or.inl rfl) rfl rfl rfl (by decide)
    (by decide) (by decide) (by decide) (by decide) (by decide)

end SaiVppRif
